import Mathlib

/-!
Verification development for the shill-utilities repository.

The definitions below are a shallow embedding of the TypeScript sources:
* `src/telegram/TelegramService.ts` — peer classification (`updateWritableGroups`),
  peer id derivation (`peerIdString`) and the send path (`sendMessageTo`);
* `src/scripts/multi_commenter.ts` — the multi-account coordinator
  (`getWritablePeers`, `fetchCommentTemplates`, the common-id intersection and the
  new-message event handler).

Asynchronous transport calls (getDialogs, sendMessage, getMessages, Math.random)
are modelled by passing their results or drawn values as explicit parameters;
a thrown exception from the transport is an `Except.error` or an error value.
-/

/-- Banned-rights record: the only field the code reads is `send_messages`
(`br && br.send_messages`, `dbr && dbr.send_messages`). -/
structure BannedRights where
  send_messages : Bool
deriving DecidableEq, Repr

/-- Conversation entity as read by the code: the `instanceof Api.Channel / Api.Chat /
Api.User` branches, with `other` for any entity of none of those classes.
The numeric id is `Option`al: `none` models `entity.id` being unreadable
(`entity.id.toString()` throwing, caught by the try/catch in `peerIdString`). -/
inductive Entity where
  | channel (id : Option Int) (left broadcast megagroup : Bool) (bannedRights : Option BannedRights)
  | chat (id : Option Int) (deactivated left : Bool) (defaultBannedRights : Option BannedRights)
  | user (id : Option Int) (bot : Bool)
  | other
deriving DecidableEq, Repr

/-- `peerIdString` from TelegramService.ts lines 141-154 (duplicated verbatim in
multi_commenter.ts lines 15-22): `channel_<n>` / `chat_<n>` / `user_<n>` by entity
class, `peer_unknown` for every other entity or when reading the id fails. -/
def peerIdString : Entity → String
  | .channel (some n) _ _ _ _ => "channel_" ++ toString n
  | .chat (some n) _ _ _ => "chat_" ++ toString n
  | .user (some n) _ => "user_" ++ toString n
  | _ => "peer_unknown"

/-- True when the entity is a channel, chat or user whose id is readable:
exactly the cases where `peerIdString` does not fall through to `peer_unknown`. -/
def entityIdReadable : Entity → Bool
  | .channel oid _ _ _ _ => oid.isSome
  | .chat oid _ _ _ => oid.isSome
  | .user oid _ => oid.isSome
  | .other => false

/-- One dialog as read by the classification loop: `title`, `inputEntity` (modelled
as an opaque `Nat` token, `none` when absent), `entity`, and the gramjs `isGroup` /
`isUser` flags. -/
structure Dialog where
  title : String
  input : Option Nat
  entity : Option Entity
  isGroup : Bool
  isUser : Bool
deriving DecidableEq, Repr

/-- A member of the writable-peer pool (`WritablePeer` in TelegramService.ts). -/
structure WritablePeer where
  title : String
  input : Nat
  id : String
deriving DecidableEq, Repr

/-- `br && br.send_messages` : a missing rights record imposes no restriction. -/
def brSend : Option BannedRights → Bool
  | some br => br.send_messages
  | none => false

/-- Body of the classification loop shared by `TelegramService.updateWritableGroups`
(lines 92-132) and `getWritablePeers` in multi_commenter.ts (lines 46-79):
`none` models `continue` (the dialog is skipped), `some p` models pushing `p`
into the new pool. -/
def classifyDialog (groupsOnly : Bool) (d : Dialog) : Option WritablePeer :=
  match d.input, d.entity with
  | some input, some entity =>
    if groupsOnly && !d.isGroup then none
    else if !groupsOnly && !(d.isGroup || d.isUser) then none
    else
      match entity with
      | .channel _ l b mg br =>
        if l then none
        else if b then none
        else if !mg then none
        else if brSend br then none
        else some ⟨d.title, input, peerIdString entity⟩
      | .chat _ dctv l dbr =>
        if dctv then none
        else if l then none
        else if brSend dbr then none
        else some ⟨d.title, input, peerIdString entity⟩
      | .user _ bot =>
        if groupsOnly then none
        else if bot then none
        else some ⟨d.title, input, peerIdString entity⟩
      | .other => some ⟨d.title, input, peerIdString entity⟩
  | _, _ => none

/-- The full classification pass: `nextPeers` built from the dialog batch. -/
def buildPeers (groupsOnly : Bool) (dialogs : List Dialog) : List WritablePeer :=
  dialogs.filterMap (classifyDialog groupsOnly)

/-- `TelegramService.updateWritableGroups` (lines 86-139). The `getDialogs` call is
modelled by its result: `Except.error` when listing the conversations throws.
Returns the pool after the call and whether it was replaced; the catch block
swallows the error (no error escapes, the pool is untouched). -/
def updateWritableGroups (groupsOnly : Bool) (fetched : Except String (List Dialog))
    (writablePeers : List WritablePeer) : List WritablePeer × Bool :=
  match fetched with
  | .ok dialogs => (buildPeers groupsOnly dialogs, true)
  | .error _ => (writablePeers, false)

/-- Does `pat` occur at the head of `hay`? -/
def startsWithChars : List Char → List Char → Bool
  | [], _ => true
  | _ :: _, [] => false
  | p :: ps, h :: hs => p == h && startsWithChars ps hs

/-- Does `pat` occur anywhere inside `hay`? -/
def charsContain (pat : List Char) : List Char → Bool
  | [] => startsWithChars pat []
  | h :: t => startsWithChars pat (h :: t) || charsContain pat t

/-- The five error substrings of the removal regex in `sendMessageTo`. -/
def permanentErrorPatterns : List String :=
  ["CHAT_WRITE_FORBIDDEN", "CHAT_ADMIN_REQUIRED", "USER_BANNED_IN_CHANNEL",
   "PEER_ID_INVALID", "YOU_BLOCKED_USER"]

/-- Upper-casing a character sequence. -/
def upperChars (cs : List Char) : List Char := cs.map Char.toUpper

/-- The test `/CHAT_WRITE_FORBIDDEN|CHAT_ADMIN_REQUIRED|USER_BANNED_IN_CHANNEL|PEER_ID_INVALID|YOU_BLOCKED_USER/i.test(msg)`:
case-insensitive containment of any of the five patterns (the patterns are
upper-case, so the `i` flag amounts to upper-casing the message). -/
def isPermanentSendError (msg : String) : Bool :=
  permanentErrorPatterns.any (fun pat => charsContain pat.data (upperChars msg.data))

/-- Error thrown by the transport `sendMessage` call: a `FloodWaitError`
carrying its `seconds` field, or any other error carrying its message. -/
inductive SendErr where
  | floodWait (seconds : Int)
  | message (msg : String)
deriving DecidableEq, Repr

/-- Observable effect of one `TelegramService.sendMessageTo` call (lines 166-189).
The transport outcome is the parameter (`none` = the awaited `client.sendMessage`
succeeded, `some e` = it threw `e`). `invoked` records that `client.sendMessage`
was called: the method body enters the try block and issues the send
unconditionally, there is no blocked-state guard and no skip path. `sleptMs` is
the duration of the `await sleep(...)` performed before returning. -/
structure SendAttempt where
  invoked : Bool
  ok : Bool
  sleptMs : Int
  writablePeers : List WritablePeer
deriving DecidableEq, Repr

/-- `TelegramService.sendMessageTo`: success returns true; a `FloodWaitError` of
`s` seconds sleeps `(s+1)*1000` ms when `0 < s < 3600` and returns false; any
other error returns false, filtering the pool by the target input only when the
message matches the permanent-error regex. -/
def sendMessageTo (writablePeers : List WritablePeer) (input : Nat)
    (outcome : Option SendErr) : SendAttempt :=
  match outcome with
  | none => ⟨true, true, 0, writablePeers⟩
  | some (.floodWait seconds) =>
    ⟨true, false, if 0 < seconds ∧ seconds < 3600 then (seconds + 1) * 1000 else 0,
      writablePeers⟩
  | some (.message msg) =>
    ⟨true, false, 0,
      if isPermanentSendError msg then writablePeers.filter (fun p => p.input != input)
      else writablePeers⟩

/-- Modelled from the spec: the FloodControlGate bookkeeping "sets
`blockedUntil[accountKey] = now + seconds`" (spec section 4.2). The code keeps no
such state — this definition exists only to state, in the terms of the spec, when
an account counts as flood-blocked, so that claims about send attempts made
inside that window can be expressed against the code model. -/
def specBlockedUntil (now seconds : Int) : Int := now + seconds

/-- C3: a conversation whose default (Chat) or account-specific (Channel)
restriction flags include send_messages is never classified as writable: the loop
body skips it, so it is never pushed into the pool (`buildPeers` of a batch headed
by such a dialog equals `buildPeers` of the rest). -/
theorem c3_send_restricted_excluded :
    (∀ g t oinp grp usr oid l b mg,
      classifyDialog g ⟨t, oinp, some (.channel oid l b mg (some ⟨true⟩)), grp, usr⟩ = none) ∧
    (∀ g t oinp grp usr oid dct l,
      classifyDialog g ⟨t, oinp, some (.chat oid dct l (some ⟨true⟩)), grp, usr⟩ = none) ∧
    (∀ g ds t oinp grp usr oid l b mg,
      buildPeers g (⟨t, oinp, some (.channel oid l b mg (some ⟨true⟩)), grp, usr⟩ :: ds)
        = buildPeers g ds) ∧
    (∀ g ds t oinp grp usr oid dct l,
      buildPeers g (⟨t, oinp, some (.chat oid dct l (some ⟨true⟩)), grp, usr⟩ :: ds)
        = buildPeers g ds) := by
  have hch : ∀ g t oinp grp usr oid l b mg,
      classifyDialog g ⟨t, oinp, some (.channel oid l b mg (some ⟨true⟩)), grp, usr⟩ = none := by
    intro g t oinp grp usr oid l b mg
    rcases oinp with _ | inp
    · rfl
    · simp only [classifyDialog, brSend]
      split <;> simp
  have hcht : ∀ g t oinp grp usr oid dct l,
      classifyDialog g ⟨t, oinp, some (.chat oid dct l (some ⟨true⟩)), grp, usr⟩ = none := by
    intro g t oinp grp usr oid dct l
    rcases oinp with _ | inp
    · rfl
    · simp only [classifyDialog, brSend]
      split <;> simp
  refine ⟨hch, hcht, ?_, ?_⟩
  · intro g ds t oinp grp usr oid l b mg
    simp [buildPeers, List.filterMap_cons, hch]
  · intro g ds t oinp grp usr oid dct l
    simp [buildPeers, List.filterMap_cons, hcht]

/-- C5: a broadcast-flagged channel entity is never classified as writable,
for either value of `groupsOnly`: the loop skips it at `if (entity.broadcast)
continue` (or at an earlier guard), so it never enters any pool. -/
theorem c5_broadcast_never_eligible :
    ∀ g t oinp grp usr oid l mg obr ds,
      classifyDialog g ⟨t, oinp, some (.channel oid l true mg obr), grp, usr⟩ = none ∧
      buildPeers g (⟨t, oinp, some (.channel oid l true mg obr), grp, usr⟩ :: ds)
        = buildPeers g ds := by
  intro g t oinp grp usr oid l mg obr ds
  have hcl : classifyDialog g ⟨t, oinp, some (.channel oid l true mg obr), grp, usr⟩ = none := by
    rcases oinp with _ | inp
    · rfl
    · simp only [classifyDialog]
      split <;> simp
  exact ⟨hcl, by simp [buildPeers, List.filterMap_cons, hcl]⟩

/-- C9: peer id derivation is total and deterministic: a channel / chat / user
entity with readable id `n` maps to `channel_<n>` / `chat_<n>` / `user_<n>`, and
every entity whose id is not readable (other entity classes, or a failing id
read) maps to the one fallback string `peer_unknown`, so all unrecognized
conversations share that single pool key. -/
theorem c9_peer_id_total :
    (∀ n l b mg obr, peerIdString (.channel (some n) l b mg obr) = "channel_" ++ toString n) ∧
    (∀ n dct l odbr, peerIdString (.chat (some n) dct l odbr) = "chat_" ++ toString n) ∧
    (∀ n bot, peerIdString (.user (some n) bot) = "user_" ++ toString n) ∧
    (∀ e, entityIdReadable e = false → peerIdString e = "peer_unknown") ∧
    (∀ e eo, entityIdReadable e = false → entityIdReadable eo = false →
      peerIdString e = peerIdString eo) := by
  have hfall : ∀ e, entityIdReadable e = false → peerIdString e = "peer_unknown" := by
    intro e h
    cases e with
    | channel oid l b mg obr => cases oid <;> simp_all [entityIdReadable, peerIdString]
    | chat oid dct l odbr => cases oid <;> simp_all [entityIdReadable, peerIdString]
    | user oid bot => cases oid <;> simp_all [entityIdReadable, peerIdString]
    | other => rfl
  exact ⟨fun n l b mg obr => rfl, fun n dct l odbr => rfl, fun n bot => rfl, hfall,
    fun e eo he heo => by rw [hfall e he, hfall eo heo]⟩

/-- C9 witness: the fallback at a concrete unrecognized entity. -/
theorem c9_peer_id_total_witness : peerIdString Entity.other = "peer_unknown" :=
  c9_peer_id_total.2.2.2.1 Entity.other rfl

/-- C10: a peer-pool refresh is atomic with respect to failure: when listing the
conversations throws, `updateWritableGroups` leaves the pool exactly as it was
and reports no replacement (the catch block swallows the error — the function
returns normally, nothing propagates); on success the new pool is built wholly
from the fetched batch, independent of the previous pool, and replaces it in a
single assignment. -/
theorem c10_refresh_atomic_on_failure (g : Bool) (cur cur2 : List WritablePeer)
    (m : String) (ds : List Dialog) :
    (updateWritableGroups g (.error m) cur).1 = cur ∧
    (updateWritableGroups g (.error m) cur).2 = false ∧
    (updateWritableGroups g (.ok ds) cur).1 = (updateWritableGroups g (.ok ds) cur2).1 ∧
    (updateWritableGroups g (.ok ds) cur).1 = buildPeers g ds :=
  ⟨rfl, rfl, rfl, rfl⟩

/-- C1 counterexample: the claim asserts that a send attempt made while the
account is flood-blocked returns Skipped without invoking the action. In the
code a flood of 100 seconds received at time 0 opens the spec-level window
`blockedUntil = specBlockedUntil 0 100 = 100`; at time 5 — inside that window,
reachable because the interval timers keep firing while the first invocation is
parked in `await sleep` — `sendMessageTo` still invokes the underlying
`client.sendMessage` (`invoked = true`), and on success even returns true: there
is no Skipped outcome and no blocked-state guard anywhere in the method. -/
theorem c1_counterexample :
    (5 : Int) < specBlockedUntil 0 100 ∧
    (sendMessageTo [] 7 none).invoked = true ∧
    (sendMessageTo [] 7 (some (.floodWait 50))).invoked = true ∧
    (sendMessageTo [] 7 none).ok = true := by
  refine ⟨by norm_num [specBlockedUntil], rfl, rfl, rfl⟩

/-- C1 amended: the code keeps no `blockedUntil` state and has no skip path:
every call of `sendMessageTo` invokes the underlying send action, whatever the
outcome; a flood signal only suspends the invocation that received it and makes
it return false, and the call returns true exactly when the transport send
succeeded. -/
theorem c1_send_always_invokes_action (peers : List WritablePeer) (input : Nat)
    (outcome : Option SendErr) :
    (sendMessageTo peers input outcome).invoked = true ∧
    ((sendMessageTo peers input outcome).ok = true ↔ outcome = none) := by
  rcases outcome with _ | e
  · exact ⟨rfl, by simp [sendMessageTo]⟩
  · rcases e with s | m <;> simp [sendMessageTo]

/-- C4: flood-wait handling in `sendMessageTo`. For a transient flood of `s`
seconds: `s` at or below zero — no suspension; `s` at or above 3600 (one hour) —
no suspension, the call returns false without waiting (the spec-level Failed
behavior, not the waited Retried behavior) and the pool is untouched; otherwise
the call suspends exactly `(s+1)*1000` ms — at least `s` and less than `s+2`
seconds — before returning. -/
theorem c4_flood_wait_bounds (peers : List WritablePeer) (input : Nat) (s : Int) :
    (s ≤ 0 → (sendMessageTo peers input (some (.floodWait s))).sleptMs = 0) ∧
    (3600 ≤ s →
      (sendMessageTo peers input (some (.floodWait s))).sleptMs = 0 ∧
      (sendMessageTo peers input (some (.floodWait s))).ok = false ∧
      (sendMessageTo peers input (some (.floodWait s))).writablePeers = peers) ∧
    (0 < s → s < 3600 →
      (sendMessageTo peers input (some (.floodWait s))).sleptMs = (s + 1) * 1000 ∧
      s * 1000 ≤ (sendMessageTo peers input (some (.floodWait s))).sleptMs ∧
      (sendMessageTo peers input (some (.floodWait s))).sleptMs < (s + 2) * 1000 ∧
      (sendMessageTo peers input (some (.floodWait s))).ok = false) := by
  refine ⟨fun h => ?_, fun h => ?_, fun h1 h2 => ?_⟩
  · show (if 0 < s ∧ s < 3600 then (s + 1) * 1000 else 0) = 0
    rw [if_neg (by omega)]
  · refine ⟨?_, rfl, rfl⟩
    show (if 0 < s ∧ s < 3600 then (s + 1) * 1000 else 0) = 0
    rw [if_neg (by omega)]
  · have hs : (sendMessageTo peers input (some (.floodWait s))).sleptMs = (s + 1) * 1000 := by
      show (if 0 < s ∧ s < 3600 then (s + 1) * 1000 else 0) = (s + 1) * 1000
      rw [if_pos ⟨h1, h2⟩]
    exact ⟨hs, by rw [hs]; nlinarith, by rw [hs]; nlinarith, rfl⟩

/-- C4 witness: a flood of 4000 seconds (above one hour) causes no suspension,
a flood of 30 seconds suspends 31000 ms. -/
theorem c4_flood_wait_bounds_witness :
    (sendMessageTo [] 0 (some (.floodWait 4000))).sleptMs = 0 ∧
    (sendMessageTo [] 0 (some (.floodWait 30))).sleptMs = (30 + 1) * 1000 :=
  ⟨((c4_flood_wait_bounds [] 0 4000).2.1 (by norm_num)).1,
   ((c4_flood_wait_bounds [] 0 30).2.2 (by norm_num) (by norm_num)).1⟩

/-- `pickRandom` from multi_commenter.ts line 12: a uniform draw
`Math.floor(Math.random() * arr.length)` is modelled by the drawn number `r`
reduced modulo the length; an empty array yields `undefined` (`none`). -/
def pickRandom {α : Type} (arr : List α) (r : Nat) : Option α :=
  arr.get? (r % arr.length)

/-- `fetchCommentTemplates` (multi_commenter.ts lines 83-100): from the raw texts
of the fetched messages (`m.message || m.text ||` the empty string), keep the
trimmed text of each and drop the empty ones. The entity/limit resolution and the
outer catch (which returns the empty list) live in the transport call, whose
returned raw texts are the parameter here. -/
def fetchCommentTemplates (msgs : List String) : List String :=
  msgs.filterMap (fun m => let clean := m.trim; if clean = "" then none else some clean)

/-- The periodic comments refresh (multi_commenter.ts lines 212-224): the fetched
list replaces the cache only when it is non-empty, otherwise the previous cache
is kept. -/
def refreshCache (commentsCache fetchedList : List String) : List String :=
  if fetchedList.length > 0 then fetchedList else commentsCache

/-- The common-peer intersection (multi_commenter.ts lines 184-191): start from
the first pool id set and successively keep only the ids present in each later
pool. -/
def computeCommonIds : List (List String) → List String
  | [] => []
  | first :: rest =>
    rest.foldl (fun acc s => acc.filter (fun id => s.contains id)) first

/-- Per-client state of the multi commenter (`ClientState`): phone, the self id
resolved at startup (`none` when `getMe` threw and the client was pushed without
`selfId`), and the writable-peer map, keyed by peer id string with the stored
input token. -/
structure CState where
  phone : String
  selfId : Option String
  writablePeers : List (String × Nat)
deriving DecidableEq, Repr

/-- The `fromId` of an incoming message as the handler reads it: the
`className === PeerUser` case carrying the user id string, or any other class. -/
inductive FromId where
  | peerUser (userId : String)
  | peerOther
deriving DecidableEq, Repr

/-- An incoming new-message event: the chat entity from `event.getChat()`
(`none` when falsy), the message `fromId`, and the message id. -/
structure MEvent where
  chat : Option Entity
  fromId : Option FromId
  msgId : Option Nat
deriving DecidableEq, Repr

/-- The random draws consumed by one handler run: the probability-gate draw
(`Math.random() < ignore_probability`), the comment index, the comment index
after the last-resort refetch, and the client index. -/
structure Draws where
  ignoreDraw : Bool
  commentIdx : Nat
  refetchCommentIdx : Nat
  clientIdx : Nat
deriving DecidableEq, Repr

/-- The reply send the handler issues: peer id, sending account phone, resolved
input token, chosen comment, and the triggering message id as `replyTo`. -/
structure SendReq where
  pid : String
  phone : String
  input : Nat
  comment : String
  replyTo : Option Nat
deriving DecidableEq, Repr

/-- The sender uid resolution (multi_commenter.ts lines 243-247): only a
`PeerUser` fromId yields a sender uid. -/
def senderUidOf : Option FromId → Option String
  | some (.peerUser uid) => some uid
  | _ => none

/-- The self-authorship check (multi_commenter.ts lines 248-252): some client
has a stored selfId equal to the resolved sender uid. -/
def selfAuthoredBy (clients : List CState) : Option String → Bool
  | some uid => clients.any (fun c => c.selfId == some uid)
  | none => false

/-- The comment selection with the last-resort refetch (multi_commenter.ts lines
263-269): pick from the cache; when that yields no (truthy) comment, the fetch
result `refetched` is assigned to the cache unconditionally and the pick is
retried on it. Returns the cache after this stage and the chosen comment
(the empty string when none). -/
def pickCommentStage (commentsCache refetched : List String) (i j : Nat) :
    List String × String :=
  let comment0 := (pickRandom commentsCache i).getD ""
  if comment0 = "" then (refetched, (pickRandom refetched j).getD "")
  else (commentsCache, comment0)

/-- The new-message handler of the multi commenter (lines 234-293), up to the
send: returns the comments cache after the run and the reply send it issues, if
any (`none` models every early return). The guards run in source order: missing
chat, peer id not in the common set, self-authored message, probability gate,
empty comment after the refetch, no client drawn, no stored input for the peer. -/
def handlerStep (commonIds : List String) (clients : List CState)
    (commentsCache refetched : List String) (dr : Draws) (ev : MEvent) :
    List String × Option SendReq :=
  match ev.chat with
  | none => (commentsCache, none)
  | some chat =>
    let pid := peerIdString chat
    if !(commonIds.contains pid) then (commentsCache, none)
    else if selfAuthoredBy clients (senderUidOf ev.fromId) then (commentsCache, none)
    else if dr.ignoreDraw then (commentsCache, none)
    else
      let st := pickCommentStage commentsCache refetched dr.commentIdx dr.refetchCommentIdx
      if st.2 = "" then (st.1, none)
      else
        match pickRandom clients dr.clientIdx with
        | none => (st.1, none)
        | some chosen =>
          match List.lookup pid chosen.writablePeers with
          | none => (st.1, none)
          | some inp => (st.1, some ⟨pid, chosen.phone, inp, st.2, ev.msgId⟩)

/-- What the handler does after issuing the reply send (the catch block, lines
282-289): a `FloodWaitError` skips the event, any other error is only logged.
Neither branch touches any client state — in particular no peer is pruned from
any writable-peer map. -/
inductive ReplyOutcome where
  | replied
  | floodSkipped (seconds : Int)
  | sendFailed (msg : String)
deriving DecidableEq, Repr

/-- The reply-send completion of the handler: the clients list after the send
outcome is processed, paired with what happened. The code has no mutation of
`clients` or any `writablePeers` map on any path. -/
def processReplySend (clients : List CState) (outcome : Option SendErr) :
    List CState × ReplyOutcome :=
  match outcome with
  | none => (clients, .replied)
  | some (.floodWait s) => (clients, .floodSkipped s)
  | some (.message m) => (clients, .sendFailed m)

/-- Folding intersection filters keeps exactly the ids present in the
accumulator and in every later pool. -/
theorem mem_foldl_inter (rest : List (List String)) (acc : List String) (id : String) :
    (id ∈ rest.foldl (fun acc s => acc.filter (fun x => s.contains x)) acc) ↔
      id ∈ acc ∧ ∀ s ∈ rest, id ∈ s := by
  induction rest generalizing acc with
  | nil => simp
  | cons s rest ih =>
    simp only [List.foldl_cons]
    rw [ih]
    simp [List.mem_filter, List.forall_mem_cons, and_assoc]

/-- C6: for a non-empty list of accounts, the computed common-id set contains an
id exactly when every pool contains it — it is the set intersection of all
pool-id sets at computation time — and it is empty whenever any single pool is
empty. -/
theorem c6_common_ids_intersection (pools : List (List String)) (hne : pools ≠ []) :
    (∀ id, (id ∈ computeCommonIds pools ↔ ∀ p ∈ pools, id ∈ p)) ∧
    (∀ p ∈ pools, p = [] → computeCommonIds pools = []) := by
  match pools with
  | [] => exact absurd rfl hne
  | first :: rest =>
    have hmem : ∀ id, (id ∈ computeCommonIds (first :: rest) ↔ ∀ p ∈ first :: rest, id ∈ p) := by
      intro id
      show (id ∈ rest.foldl _ first) ↔ _
      rw [mem_foldl_inter]
      simp [List.forall_mem_cons]
    refine ⟨hmem, ?_⟩
    intro p hp hpnil
    rw [List.eq_nil_iff_forall_not_mem]
    intro id hid
    have hin := (hmem id).mp hid p hp
    rw [hpnil] at hin
    exact (List.not_mem_nil id) hin

/-- C6 witness: the intersection characterization at a concrete pool list. -/
theorem c6_common_ids_intersection_witness :
    ("a" ∈ computeCommonIds [["a", "b"], ["a"]] ↔ ∀ p ∈ [["a", "b"], ["a"]], "a" ∈ p) :=
  (c6_common_ids_intersection [["a", "b"], ["a"]] (by simp)).1 "a"

/-- C2: an incoming event whose resolved author identity (a PeerUser fromId)
equals the stored self-identity of any managed account — not only the watcher,
the check ranges over all clients — is ignored by the handler: no reply send is
issued for it. -/
theorem c2_self_authored_ignored (commonIds : List String) (clients : List CState)
    (cache refetched : List String) (dr : Draws) (ev : MEvent) (uid : String)
    (hfrom : senderUidOf ev.fromId = some uid)
    (hself : clients.any (fun c => c.selfId == some uid) = true) :
    (handlerStep commonIds clients cache refetched dr ev).2 = none := by
  unfold handlerStep
  cases hchat : ev.chat with
  | none => rfl
  | some chat =>
    rw [hfrom]
    by_cases hc : peerIdString chat ∈ commonIds
    · simp [hc, selfAuthoredBy, hself]
    · simp [hc]

/-- C2 witness: a message in a common peer authored by the stored self id of the
second managed account produces no reply send. -/
theorem c2_self_authored_ignored_witness :
    (handlerStep ["user_1"] [⟨"+100", some "7", [("user_1", 3)]⟩, ⟨"+200", some "42", [("user_1", 4)]⟩]
      ["hi"] [] ⟨false, 0, 0, 0⟩
      ⟨some (.user (some 1) false), some (.peerUser "42"), some 9⟩).2 = none :=
  c2_self_authored_ignored _ _ _ _ _ _ "42" rfl (by decide)

/-- The comments cache coming out of one handler run is either the incoming
cache (an early return) or the cache produced by the comment-selection stage. -/
theorem handlerStep_fst (commonIds : List String) (clients : List CState)
    (cache refetched : List String) (dr : Draws) (ev : MEvent) :
    (handlerStep commonIds clients cache refetched dr ev).1 = cache ∨
    (handlerStep commonIds clients cache refetched dr ev).1 =
      (pickCommentStage cache refetched dr.commentIdx dr.refetchCommentIdx).1 := by
  unfold handlerStep
  cases ev.chat with
  | none => exact Or.inl rfl
  | some chat =>
    dsimp only
    repeat' split
    all_goals first | exact Or.inl rfl | exact Or.inr rfl

/-- An element produced by `pickRandom` is an element of the array. -/
theorem pickRandom_mem {α : Type} (arr : List α) (r : Nat) (x : α)
    (h : pickRandom arr r = some x) : x ∈ arr :=
  List.get?_mem h

/-- On a non-empty array, `pickRandom` yields an element of the array. -/
theorem pickRandom_of_ne_nil {α : Type} (arr : List α) (r : Nat) (h : arr ≠ []) :
    ∃ x, pickRandom arr r = some x ∧ x ∈ arr := by
  have hlen : 0 < arr.length := List.length_pos.mpr h
  have hr : r % arr.length < arr.length := Nat.mod_lt _ hlen
  exact ⟨_, List.get?_eq_get hr, List.get_mem _ _ _⟩

/-- C7: a template refresh whose fetch comes back empty leaves the cache
unchanged, on both refresh paths: the periodic refresh keeps the previous cache
verbatim (and changes it only to a non-empty fetched list), and the handler with
an empty last-resort fetch result also leaves the cache value unchanged —
the unconditional assignment in the refetch branch only ever runs when the cache
is already empty, since a non-empty cache (whose entries are never empty
strings, the fetch filters them) always yields a comment. -/
theorem c7_empty_fetch_preserves_cache (cache fetched msgs commonIds : List String)
    (clients : List CState) (dr : Draws) (ev : MEvent) :
    refreshCache cache [] = cache ∧
    (refreshCache cache fetched ≠ cache → fetched ≠ [] ∧ refreshCache cache fetched = fetched) ∧
    (("" : String) ∉ cache → (handlerStep commonIds clients cache [] dr ev).1 = cache) ∧
    ("" : String) ∉ fetchCommentTemplates msgs := by
  refine ⟨by simp [refreshCache], ?_, ?_, ?_⟩
  · intro hne
    unfold refreshCache at hne ⊢
    by_cases hl : fetched.length > 0
    · rw [if_pos hl]
      exact ⟨List.length_pos.mp hl, rfl⟩
    · rw [if_neg hl] at hne
      exact absurd rfl hne
  · intro hnin
    have hst : (pickCommentStage cache [] dr.commentIdx dr.refetchCommentIdx).1 = cache := by
      unfold pickCommentStage
      by_cases hcache : cache = []
      · subst hcache
        simp [pickRandom]
      · rcases pickRandom_of_ne_nil cache dr.commentIdx hcache with ⟨x, hx, hxm⟩
        have hxne : ¬x = "" := fun h => hnin (h ▸ hxm)
        rw [hx]
        simp [hxne]
    rcases handlerStep_fst commonIds clients cache [] dr ev with h | h
    · exact h
    · rw [h, hst]
  · intro hmem
    rw [fetchCommentTemplates, List.mem_filterMap] at hmem
    rcases hmem with ⟨m, _, hsome⟩
    dsimp only at hsome
    by_cases ht : m.trim = ""
    · rw [if_pos ht] at hsome
      exact Option.noConfusion hsome
    · rw [if_neg ht] at hsome
      exact ht (Option.some.inj hsome)

/-- C7 witness: a handler run with an empty refetch result leaves a concrete
non-empty cache unchanged. -/
theorem c7_empty_fetch_preserves_cache_witness :
    (handlerStep ["user_1"] [] ["hello"] [] ⟨false, 0, 0, 0⟩ ⟨none, none, none⟩).1 = ["hello"] :=
  (c7_empty_fetch_preserves_cache ["hello"] [] [] ["user_1"] [] ⟨false, 0, 0, 0⟩
    ⟨none, none, none⟩).2.2.1 (by decide)

/-- C8 counterexample: in the multi-commenter reply path, a send failing with the
permanent peer-level rejection CHAT_WRITE_FORBIDDEN leaves the account pools
exactly as they were — the offending peer (`chat_5`) is still in the chosen
account pool, the handler only logs the error. The claim, which requires the
peer to be removed from the account pool on every such send attempt, is false
on this path. -/
theorem c8_counterexample :
    isPermanentSendError "CHAT_WRITE_FORBIDDEN" = true ∧
    (processReplySend [⟨"+100", some "42", [("chat_5", 7)]⟩]
        (some (.message "CHAT_WRITE_FORBIDDEN"))).1
      = [⟨"+100", some "42", [("chat_5", 7)]⟩] ∧
    (processReplySend [⟨"+100", some "42", [("chat_5", 7)]⟩]
        (some (.message "CHAT_WRITE_FORBIDDEN"))).2
      = .sendFailed "CHAT_WRITE_FORBIDDEN" :=
  ⟨by decide, rfl, rfl⟩

/-- C8 amended: in `TelegramService.sendMessageTo` a permanent peer-level
rejection (a message matching the five-pattern regex) makes the call report
failure and removes the offending peer (by its input) from that account pool,
and any other non-flood error retains the pool unchanged; the multi-commenter
reply path, however, never prunes any pool — its error handling leaves the
clients exactly as they were for every outcome. -/
theorem c8_amended (peers : List WritablePeer) (input : Nat) (m : String)
    (clients : List CState) (outcome : Option SendErr) :
    (isPermanentSendError m = true →
      (sendMessageTo peers input (some (.message m))).writablePeers
        = peers.filter (fun p => p.input != input) ∧
      (sendMessageTo peers input (some (.message m))).ok = false) ∧
    (isPermanentSendError m = false →
      (sendMessageTo peers input (some (.message m))).writablePeers = peers) ∧
    (processReplySend clients outcome).1 = clients := by
  refine ⟨fun h => ⟨?_, rfl⟩, fun h => ?_, ?_⟩
  · show (if isPermanentSendError m then peers.filter (fun p => p.input != input) else peers)
      = peers.filter (fun p => p.input != input)
    rw [if_pos h]
  · show (if isPermanentSendError m then peers.filter (fun p => p.input != input) else peers)
      = peers
    rw [if_neg (by simp [h])]
  · cases outcome with
    | none => rfl
    | some e => cases e <;> rfl

/-- C8 amended witness: a CHAT_WRITE_FORBIDDEN rejection in the single-account
service removes the target peer from the pool. -/
theorem c8_amended_witness :
    (sendMessageTo [⟨"t", 7, "chat_5"⟩] 7
        (some (.message "CHAT_WRITE_FORBIDDEN"))).writablePeers
      = List.filter (fun p => p.input != 7) [⟨"t", 7, "chat_5"⟩] :=
  ((c8_amended [⟨"t", 7, "chat_5"⟩] 7 "CHAT_WRITE_FORBIDDEN" [] none).1 (by decide)).1
